import Mathlib

/-!
Shallow embedding of `dinput8_wrapper_ignore_triggers` (dllmain.cpp).

The program is a DirectInput8 proxy DLL.  Its observable behaviour is
captured here as pure Lean functions; the external real DirectInput
implementation (the real factory object, the real device object, the
genuine system DLL) is modelled as a function parameter describing what
the real code would return and write, since the wrapper treats it as an
opaque oracle.

Conventions:
* `HRESULT` values are modelled as `Int`; the Windows macro
  `SUCCEEDED(hr)` is `0 ≤ hr`.
* A caller-supplied state buffer is modelled as its list of bytes.
* Interface identifiers (`REFIID`) are modelled as small inductive
  types distinguishing the identifiers the wrapper compares against
  from all others.
-/

namespace DInput8Wrapper

/-- The Windows `SUCCEEDED` macro: `((HRESULT)(hr) >= 0)`. -/
def SUCCEEDED (hr : Int) : Bool := decide (0 ≤ hr)

/-- The `S_OK` success code. -/
def S_OK : Int := 0

/-- The `E_FAIL` code, `0x80004005` read as a signed 32-bit value. -/
def E_FAIL : Int := -2147467259

/-- Size in bytes of the `DIJOYSTATE` structure: six `LONG` axes
(`lX lY lZ lRx lRy lRz`), two `LONG` sliders, four `DWORD` POVs and
32 `BYTE` buttons: `6*4 + 2*4 + 4*4 + 32 = 80`. -/
def sizeof_DIJOYSTATE : Nat := 80

/-- Byte offset of the `lRx` field inside `DIJOYSTATE` (fourth `LONG`). -/
def lRx_offset : Nat := 12

/-- Byte offset of the `lRy` field inside `DIJOYSTATE` (fifth `LONG`). -/
def lRy_offset : Nat := 16

/-- A caller-supplied state buffer, modelled as its sequence of bytes. -/
abbrev ByteBuf := List Nat

/-- Effect of the C store `*(LONG*)(buf + off) = 0`: the four bytes at
offsets `off .. off+3` become zero. -/
def storeLongZero (buf : ByteBuf) (off : Nat) : ByteBuf :=
  (((buf.set off 0).set (off + 1) 0).set (off + 2) 0).set (off + 3) 0

/-- The suppression body of `GetDeviceState` (dllmain.cpp:521-523):
`state->lRx = 0; state->lRy = 0;` on a buffer viewed as `DIJOYSTATE*`. -/
def suppressRxRy (buf : ByteBuf) : ByteBuf :=
  storeLongZero (storeLongZero buf lRx_offset) lRy_offset

/-- Read a little-endian 4-byte `LONG` of the buffer as a `Nat`
(out-of-range bytes read as 0). -/
def readLONG (buf : ByteBuf) (off : Nat) : Nat :=
  buf.getD off 0 + 256 * buf.getD (off + 1) 0 +
    65536 * buf.getD (off + 2) 0 + 16777216 * buf.getD (off + 3) 0

/-- The `lRx` field of a buffer viewed as `DIJOYSTATE`. -/
def lRx (buf : ByteBuf) : Nat := readLONG buf lRx_offset

/-- The `lRy` field of a buffer viewed as `DIJOYSTATE`. -/
def lRy (buf : ByteBuf) : Nat := readLONG buf lRy_offset

/-- `WrapperIDirectInputDevice8A::GetDeviceState` (dllmain.cpp:517-526);
the `W` variant (dllmain.cpp:720-729) has byte-identical logic.
`realGDS` models the real device: given `cbData` and the buffer
contents it returns the `HRESULT` and the buffer contents it wrote.
The wrapper forwards, then iff the call succeeded and `cbData`
equals `sizeof(DIJOYSTATE)` stores 0 into `lRx` and `lRy`. -/
def GetDeviceState (realGDS : Nat → ByteBuf → Int × ByteBuf)
    (cbData : Nat) (lpvData : ByteBuf) : Int × ByteBuf :=
  let r := realGDS cbData lpvData
  if SUCCEEDED r.1 ∧ cbData = sizeof_DIJOYSTATE then
    (r.1, suppressRxRy r.2)
  else
    r

/-- `GET_DIDEVICE_TYPE(dwDevType)`, i.e. `LOBYTE(dwDevType)`. -/
def GET_DIDEVICE_TYPE (dwDevType : Nat) : Nat := dwDevType % 256

/-- `GET_DIDEVICE_SUBTYPE(dwDevType)`, i.e. `HIBYTE(dwDevType)`. -/
def GET_DIDEVICE_SUBTYPE (dwDevType : Nat) : Nat := dwDevType / 256 % 256

/-- The `DI8DEVTYPE_1STPERSON` device-type constant from dinput.h. -/
def DI8DEVTYPE_1STPERSON : Nat := 24

/-- The `DI8DEVTYPE1STPERSON_SIXDOF` sub-type constant from dinput.h. -/
def DI8DEVTYPE1STPERSON_SIXDOF : Nat := 3

/-- The part of `DIDEVICEINSTANCE` that `CreateDevice` reads for its
wrap decision: the combined type/sub-type field `dwDevType`. -/
structure DIDEVICEINSTANCE where
  dwDevType : Nat

/-- Final contents of the caller's `lplpDirectInputDevice` slot after
`CreateDevice`, over an abstract real-device handle type `H`. -/
inductive CreatedDevice (H : Type) where
  | wrapped (realDev : H)
  | passthrough (realDev : H)
  | unset
  deriving DecidableEq, Repr

/-- `WrapperIDirectInput8A::CreateDevice` (dllmain.cpp:646-675); the `W`
variant (dllmain.cpp:769-798) has identical logic.  `createHr` is the
result of the real factory's `CreateDevice`, `realDev` the handle it
wrote, `getInfoHr` the result the real device's `GetDeviceInfo` would
return and `didi` the instance data it would fill in.  Returns the
`HRESULT` the wrapper returns together with what it stores in the
caller's output slot (`unset` when the output is left untouched). -/
def CreateDevice {H : Type} (createHr : Int) (realDev : H)
    (getInfoHr : Int) (didi : DIDEVICEINSTANCE) : Int × CreatedDevice H :=
  if SUCCEEDED createHr then
    if SUCCEEDED getInfoHr then
      if GET_DIDEVICE_TYPE didi.dwDevType = DI8DEVTYPE_1STPERSON ∧
          GET_DIDEVICE_SUBTYPE didi.dwDevType = DI8DEVTYPE1STPERSON_SIXDOF then
        (createHr, CreatedDevice.wrapped realDev)
      else
        (createHr, CreatedDevice.passthrough realDev)
    else
      (createHr, CreatedDevice.passthrough realDev)
  else
    (createHr, CreatedDevice.unset)

/-- A proxy together with the real object it wraps: `realObj` is the
wrapped real object's state, `proxyAlive` whether the C++ wrapper
object still exists (`delete this` sets it to `false`). -/
structure ProxyState (R : Type) where
  realObj : R
  proxyAlive : Bool
  deriving DecidableEq, Repr

/-- `Release` of every wrapper class (dllmain.cpp:482-488, 638-644, 717,
768), over an abstract real object whose `Release` is `realRelease`:
`ULONG uRet = m_pReal->Release(); if (uRet == 0) delete this; return uRet;`.
Returns the `ULONG` returned to the caller and the new state. -/
def proxyRelease {R : Type} (realRelease : R → Nat × R)
    (s : ProxyState R) : Nat × ProxyState R :=
  let p := realRelease s.realObj
  (p.1, ⟨p.2, if p.1 = 0 then false else s.proxyAlive⟩)

/-- A standard reference-counted real COM object, reduced to its count:
`Release` decrements the count and returns the decremented value. -/
def refRelease (count : Nat) : Nat × Nat := (count - 1, count - 1)

/-- One `Release` call on a proxy wrapping a reference-counted real
object, viewed as a state transition. -/
def releaseStep (s : ProxyState Nat) : ProxyState Nat :=
  (proxyRelease refRelease s).2

/-- Interface identifiers as compared by a proxy's `QueryInterface`:
`IID_IUnknown`, the proxy's own base interface IID
(`IID_IDirectInput8A/W` or `IID_IDirectInputDevice8A/W`), or any
other identifier. -/
inductive QIid where
  | iUnknown
  | ownBase
  | other (code : Nat)
  deriving DecidableEq, Repr

/-- Final contents of the caller's `ppvObj` slot after `QueryInterface`:
the proxy itself, or whatever the real object's `QueryInterface`
produced. -/
inductive QIOut (H : Type) where
  | self
  | fromReal (v : H)
  deriving DecidableEq, Repr

/-- `QueryInterface` of every wrapper class (dllmain.cpp:469-476,
625-632, 715, 766), over an abstract real object: for `IID_IUnknown`
or the proxy's own base IID it stores `this`, calls `AddRef()` once
(which delegates to the real object) and returns `S_OK`; otherwise it
forwards to the real object's `QueryInterface`.  The third component
counts the `AddRef` increments the proxy performed. -/
def proxyQueryInterface {H : Type} (realQI : QIid → Int × H)
    (riid : QIid) : Int × QIOut H × Nat :=
  match riid with
  | QIid.iUnknown => (S_OK, QIOut.self, 1)
  | QIid.ownBase => (S_OK, QIOut.self, 1)
  | QIid.other c =>
    let p := realQI (QIid.other c)
    (p.1, QIOut.fromReal p.2, 0)

/-- Interface identifiers as compared by the exported
`DirectInput8Create`: `IID_IDirectInput8A`, `IID_IDirectInput8W`, or
any other identifier. -/
inductive Riid where
  | a8
  | w8
  | other (code : Nat)
  deriving DecidableEq, Repr

/-- Outcome of the lazy load of the genuine system DLL: whether
`LoadLibraryA` on the system `dinput8.dll` succeeds and whether
`GetProcAddress` finds its `DirectInput8Create` export. -/
structure LoadEnv where
  loadLibraryOk : Bool
  getProcOk : Bool
  deriving DecidableEq, Repr

/-- Final contents of the caller's `ppvOut` slot after the exported
`DirectInput8Create`: untouched, populated directly by the genuine
create function, or a new wrapper object around a real handle. -/
inductive PpvOut (H : Type) where
  | untouched
  | fromReal (v : H)
  | wrapA (realObj : H)
  | wrapW (realObj : H)
  deriving DecidableEq, Repr

/-- The exported `DirectInput8Create` (dllmain.cpp:809-845).  `cached`
models whether `g_pfnDirectInput8Create` is already set; `realCreate`
models the genuine DLL's create function, returning the `HRESULT` and
the value it writes into the given output slot.  Returns the
`HRESULT`, the final `ppvOut` contents and the new cached-flag. -/
def DirectInput8Create {H : Type} (cached : Bool) (env : LoadEnv)
    (realCreate : Riid → Int × H) (riid : Riid) : Int × PpvOut H × Bool :=
  if cached = false ∧ env.loadLibraryOk = false then
    (E_FAIL, PpvOut.untouched, false)
  else if cached = false ∧ env.getProcOk = false then
    (E_FAIL, PpvOut.untouched, false)
  else
    match riid with
    | Riid.a8 =>
      let p := realCreate Riid.a8
      (p.1, if SUCCEEDED p.1 then PpvOut.wrapA p.2 else PpvOut.untouched, true)
    | Riid.w8 =>
      let p := realCreate Riid.w8
      (p.1, if SUCCEEDED p.1 then PpvOut.wrapW p.2 else PpvOut.untouched, true)
    | Riid.other c =>
      let p := realCreate (Riid.other c)
      (p.1, PpvOut.fromReal p.2, true)

theorem getD_set (l : List Nat) (i j a : Nat) :
    (l.set i a).getD j 0 = if i = j ∧ j < l.length then a else l.getD j 0 := by
  simp only [List.getD_eq_getElem?_getD, List.getElem?_set]
  by_cases h : i = j
  · subst h
    by_cases hl : i < l.length <;> simp [hl, List.getElem?_eq_none, Nat.le_of_not_lt]
  · simp [h]

theorem suppressRxRy_getD (l : ByteBuf) (j : Nat) :
    (suppressRxRy l).getD j 0 =
      if lRx_offset ≤ j ∧ j < lRy_offset + 4 ∧ j < l.length then 0
      else l.getD j 0 := by
  unfold suppressRxRy storeLongZero lRx_offset lRy_offset
  simp only [getD_set, List.length_set]
  split_ifs <;> first | rfl | omega

theorem suppressRxRy_length (l : ByteBuf) :
    (suppressRxRy l).length = l.length := by
  unfold suppressRxRy storeLongZero
  simp

theorem suppressRxRy_getD_zero (l : ByteBuf) (j : Nat)
    (h1 : lRx_offset ≤ j) (h2 : j < lRy_offset + 4) (h3 : j < l.length) :
    (suppressRxRy l).getD j 0 = 0 := by
  rw [suppressRxRy_getD, if_pos ⟨h1, h2, h3⟩]

theorem suppressRxRy_getD_of_outside (l : ByteBuf) (j : Nat)
    (h : j < lRx_offset ∨ lRy_offset + 4 ≤ j) :
    (suppressRxRy l).getD j 0 = l.getD j 0 := by
  rw [suppressRxRy_getD]
  have hn : ¬(lRx_offset ≤ j ∧ j < lRy_offset + 4 ∧ j < l.length) := by
    simp only [lRx_offset, lRy_offset] at *
    omega
  rw [if_neg hn]

theorem lRx_suppressRxRy (l : ByteBuf) (h : lRy_offset + 4 ≤ l.length) :
    lRx (suppressRxRy l) = 0 := by
  have hz : ∀ j, lRx_offset ≤ j → j < lRy_offset + 4 →
      (suppressRxRy l).getD j 0 = 0 := fun j h1 h2 =>
    suppressRxRy_getD_zero l j h1 h2 (by omega)
  unfold lRx readLONG
  rw [hz, hz, hz, hz] <;>
    first
      | omega
      | (simp only [lRx_offset, lRy_offset]; omega)

theorem lRy_suppressRxRy (l : ByteBuf) (h : lRy_offset + 4 ≤ l.length) :
    lRy (suppressRxRy l) = 0 := by
  have hz : ∀ j, lRx_offset ≤ j → j < lRy_offset + 4 →
      (suppressRxRy l).getD j 0 = 0 := fun j h1 h2 =>
    suppressRxRy_getD_zero l j h1 h2 (by omega)
  unfold lRy readLONG
  rw [hz, hz, hz, hz] <;>
    first
      | omega
      | (simp only [lRx_offset, lRy_offset]; omega)

theorem GetDeviceState_of_succeeded_exact
    (realGDS : Nat → ByteBuf → Int × ByteBuf) (buf : ByteBuf)
    (hsucc : SUCCEEDED (realGDS sizeof_DIJOYSTATE buf).1 = true) :
    GetDeviceState realGDS sizeof_DIJOYSTATE buf =
      ((realGDS sizeof_DIJOYSTATE buf).1,
        suppressRxRy (realGDS sizeof_DIJOYSTATE buf).2) := by
  unfold GetDeviceState
  simp [hsucc]

/-- C1: when the real call succeeds and the declared buffer size equals
`sizeof(DIJOYSTATE)`, the wrapper's `GetDeviceState` returns the real
`HRESULT`, the `lRx` and `lRy` fields of the returned buffer are zero
regardless of what the real device wrote, and every byte outside those
two fields equals exactly what the real device wrote. -/
theorem C1_getDeviceState_exact_size_suppresses
    (realGDS : Nat → ByteBuf → Int × ByteBuf) (buf : ByteBuf)
    (hsucc : SUCCEEDED (realGDS sizeof_DIJOYSTATE buf).1 = true)
    (hlen : (realGDS sizeof_DIJOYSTATE buf).2.length = sizeof_DIJOYSTATE) :
    (GetDeviceState realGDS sizeof_DIJOYSTATE buf).1 =
        (realGDS sizeof_DIJOYSTATE buf).1 ∧
    lRx (GetDeviceState realGDS sizeof_DIJOYSTATE buf).2 = 0 ∧
    lRy (GetDeviceState realGDS sizeof_DIJOYSTATE buf).2 = 0 ∧
    ∀ j, j < lRx_offset ∨ lRy_offset + 4 ≤ j →
      (GetDeviceState realGDS sizeof_DIJOYSTATE buf).2.getD j 0 =
        (realGDS sizeof_DIJOYSTATE buf).2.getD j 0 := by
  have hform := GetDeviceState_of_succeeded_exact realGDS buf hsucc
  have hlen20 : lRy_offset + 4 ≤ (realGDS sizeof_DIJOYSTATE buf).2.length := by
    rw [hlen]
    simp only [lRy_offset, sizeof_DIJOYSTATE]
    omega
  refine ⟨?_, ?_, ?_, ?_⟩
  · rw [hform]
  · rw [hform]
    exact lRx_suppressRxRy _ hlen20
  · rw [hform]
    exact lRy_suppressRxRy _ hlen20
  · intro j hj
    rw [hform]
    exact suppressRxRy_getD_of_outside _ j hj

/-- C1 witness: a concrete real device writing 80 bytes, each byte 7,
through a recognized-size call. -/
theorem C1_getDeviceState_exact_size_suppresses_witness :
    SUCCEEDED ((fun (_ : Nat) (_ : ByteBuf) =>
        ((0 : Int), List.replicate 80 7)) sizeof_DIJOYSTATE
        (List.replicate 80 0)).1 = true ∧
    ((fun (_ : Nat) (_ : ByteBuf) => ((0 : Int), List.replicate 80 7))
        sizeof_DIJOYSTATE (List.replicate 80 0)).2.length =
      sizeof_DIJOYSTATE ∧
    lRx (GetDeviceState
        (fun (_ : Nat) (_ : ByteBuf) => ((0 : Int), List.replicate 80 7))
        sizeof_DIJOYSTATE (List.replicate 80 0)).2 = 0 :=
  ⟨by decide, by decide,
    (C1_getDeviceState_exact_size_suppresses
      (fun (_ : Nat) (_ : ByteBuf) => ((0 : Int), List.replicate 80 7))
      (List.replicate 80 0) (by decide) (by decide)).2.1⟩

/-- C4: for any declared size other than `sizeof(DIJOYSTATE)`, after a
successful real call the wrapper's `GetDeviceState` is an identity on
the real result: same `HRESULT`, every byte exactly as the real device
wrote it. -/
theorem C4_getDeviceState_other_size_passthrough
    (realGDS : Nat → ByteBuf → Int × ByteBuf) (cbData : Nat) (buf : ByteBuf)
    (hne : cbData ≠ sizeof_DIJOYSTATE)
    (hsucc : SUCCEEDED (realGDS cbData buf).1 = true) :
    GetDeviceState realGDS cbData buf = realGDS cbData buf := by
  unfold GetDeviceState
  simp [hne]

/-- C4 witness: a 64-byte call through a device that reports success. -/
theorem C4_getDeviceState_other_size_passthrough_witness :
    (64 : Nat) ≠ sizeof_DIJOYSTATE ∧
    SUCCEEDED (((fun (_ : Nat) (_ : ByteBuf) =>
        ((0 : Int), List.replicate 64 9)) 64 (List.replicate 64 0)).1) = true ∧
    GetDeviceState
        (fun (_ : Nat) (_ : ByteBuf) => ((0 : Int), List.replicate 64 9))
        64 (List.replicate 64 0) =
      (fun (_ : Nat) (_ : ByteBuf) => ((0 : Int), List.replicate 64 9))
        64 (List.replicate 64 0) :=
  ⟨by decide, by decide,
    C4_getDeviceState_other_size_passthrough
      (fun (_ : Nat) (_ : ByteBuf) => ((0 : Int), List.replicate 64 9))
      64 (List.replicate 64 0) (by decide) (by decide)⟩

/-- C7: when the real device's call fails, the wrapper's
`GetDeviceState` returns the failure code unmodified and the buffer
holds exactly what the real call left there: the wrapper writes
nothing. -/
theorem C7_getDeviceState_failure_passthrough
    (realGDS : Nat → ByteBuf → Int × ByteBuf) (cbData : Nat) (buf : ByteBuf)
    (hfail : SUCCEEDED (realGDS cbData buf).1 = false) :
    GetDeviceState realGDS cbData buf = realGDS cbData buf := by
  unfold GetDeviceState
  simp [hfail]

/-- C7 witness: a recognized-size call through a device that fails with
`E_FAIL`; the wrapper passes the failure through untouched. -/
theorem C7_getDeviceState_failure_passthrough_witness :
    SUCCEEDED (((fun (_ : Nat) (b : ByteBuf) => (E_FAIL, b)) 80
        (List.replicate 80 3)).1) = false ∧
    GetDeviceState (fun (_ : Nat) (b : ByteBuf) => (E_FAIL, b)) 80
        (List.replicate 80 3) =
      (fun (_ : Nat) (b : ByteBuf) => (E_FAIL, b)) 80
        (List.replicate 80 3) :=
  ⟨by decide,
    C7_getDeviceState_failure_passthrough
      (fun (_ : Nat) (b : ByteBuf) => (E_FAIL, b)) 80
      (List.replicate 80 3) (by decide)⟩

/-- C10: the suppression applies under the `SUCCEEDED` predicate, i.e.
for every non-negative `HRESULT`, not only `S_OK`: with a
recognized-size buffer and a real result that is non-negative but
different from `S_OK`, `lRx` and `lRy` are still zeroed. -/
theorem C10_getDeviceState_succeeded_not_only_S_OK
    (realGDS : Nat → ByteBuf → Int × ByteBuf) (buf : ByteBuf)
    (hpos : 0 ≤ (realGDS sizeof_DIJOYSTATE buf).1)
    (hinfo : (realGDS sizeof_DIJOYSTATE buf).1 ≠ S_OK)
    (hlen : (realGDS sizeof_DIJOYSTATE buf).2.length = sizeof_DIJOYSTATE) :
    lRx (GetDeviceState realGDS sizeof_DIJOYSTATE buf).2 = 0 ∧
    lRy (GetDeviceState realGDS sizeof_DIJOYSTATE buf).2 = 0 := by
  have hs : SUCCEEDED (realGDS sizeof_DIJOYSTATE buf).1 = true := by
    simp [SUCCEEDED, hpos]
  have hform := GetDeviceState_of_succeeded_exact realGDS buf hs
  have hlen20 : lRy_offset + 4 ≤ (realGDS sizeof_DIJOYSTATE buf).2.length := by
    rw [hlen]
    simp only [lRy_offset, sizeof_DIJOYSTATE]
    omega
  constructor
  · rw [hform]
    exact lRx_suppressRxRy _ hlen20
  · rw [hform]
    exact lRy_suppressRxRy _ hlen20

/-- C10 witness: a real device returning the informational success code
`1` (`S_FALSE`) and buffer bytes all `200`; the rotational fields still
read zero. -/
theorem C10_getDeviceState_succeeded_not_only_S_OK_witness :
    (0 : Int) ≤ ((fun (_ : Nat) (_ : ByteBuf) =>
        ((1 : Int), List.replicate 80 200)) sizeof_DIJOYSTATE
        (List.replicate 80 0)).1 ∧
    ((fun (_ : Nat) (_ : ByteBuf) => ((1 : Int), List.replicate 80 200))
        sizeof_DIJOYSTATE (List.replicate 80 0)).1 ≠ S_OK ∧
    lRx (GetDeviceState
        (fun (_ : Nat) (_ : ByteBuf) => ((1 : Int), List.replicate 80 200))
        sizeof_DIJOYSTATE (List.replicate 80 0)).2 = 0 :=
  ⟨by decide, by decide,
    (C10_getDeviceState_succeeded_not_only_S_OK
      (fun (_ : Nat) (_ : ByteBuf) => ((1 : Int), List.replicate 80 200))
      (List.replicate 80 0) (by decide) (by decide) (by decide)).1⟩

/-- C2: when creation and the device-info query both succeed,
`CreateDevice` returns the creation `HRESULT`; the output slot holds a
new device wrapper around the real handle exactly when the descriptor's
type is `DI8DEVTYPE_1STPERSON` and its sub-type is
`DI8DEVTYPE1STPERSON_SIXDOF`, and holds the unmodified real handle
otherwise. -/
theorem C2_createDevice_wrap_decision {H : Type} (createHr : Int)
    (realDev : H) (getInfoHr : Int) (didi : DIDEVICEINSTANCE)
    (hc : SUCCEEDED createHr = true) (hi : SUCCEEDED getInfoHr = true) :
    (CreateDevice createHr realDev getInfoHr didi).1 = createHr ∧
    ((GET_DIDEVICE_TYPE didi.dwDevType = DI8DEVTYPE_1STPERSON ∧
        GET_DIDEVICE_SUBTYPE didi.dwDevType = DI8DEVTYPE1STPERSON_SIXDOF) →
      (CreateDevice createHr realDev getInfoHr didi).2 =
        CreatedDevice.wrapped realDev) ∧
    (¬(GET_DIDEVICE_TYPE didi.dwDevType = DI8DEVTYPE_1STPERSON ∧
        GET_DIDEVICE_SUBTYPE didi.dwDevType = DI8DEVTYPE1STPERSON_SIXDOF) →
      (CreateDevice createHr realDev getInfoHr didi).2 =
        CreatedDevice.passthrough realDev) := by
  unfold CreateDevice
  simp only [hc, if_true]
  simp only [hi, if_true]
  constructor
  · split_ifs <;> rfl
  constructor
  · intro hmatch
    rw [if_pos hmatch]
  · intro hmiss
    rw [if_neg hmiss]

/-- C2 witness: a matching descriptor (`dwDevType = 0x0318`, type
`0x18`, sub-type `3`) gets wrapped, with the creation code returned. -/
theorem C2_createDevice_wrap_decision_witness :
    SUCCEEDED 0 = true ∧ SUCCEEDED 1 = true ∧
    (CreateDevice (H := Nat) 0 42 1 ⟨792⟩).1 = 0 ∧
    (CreateDevice (H := Nat) 0 42 1 ⟨792⟩).2 = CreatedDevice.wrapped 42 :=
  ⟨by decide, by decide,
    (C2_createDevice_wrap_decision (H := Nat) 0 42 1 ⟨792⟩
      (by decide) (by decide)).1,
    (C2_createDevice_wrap_decision (H := Nat) 0 42 1 ⟨792⟩
      (by decide) (by decide)).2.1 (by decide)⟩

/-- C5: when creation succeeds but the device-info query fails,
`CreateDevice` still returns the successful creation code and the
output slot holds the real handle, unwrapped. -/
theorem C5_createDevice_info_failure_fail_open {H : Type} (createHr : Int)
    (realDev : H) (getInfoHr : Int) (didi : DIDEVICEINSTANCE)
    (hc : SUCCEEDED createHr = true) (hi : SUCCEEDED getInfoHr = false) :
    CreateDevice createHr realDev getInfoHr didi =
      (createHr, CreatedDevice.passthrough realDev) ∧
    SUCCEEDED (CreateDevice createHr realDev getInfoHr didi).1 = true := by
  unfold CreateDevice
  simp [hc, hi]

/-- C5 witness: creation returns `S_OK`, the info query returns
`E_FAIL`; the device is passed through and the call succeeds. -/
theorem C5_createDevice_info_failure_fail_open_witness :
    SUCCEEDED 0 = true ∧ SUCCEEDED E_FAIL = false ∧
    CreateDevice (H := Nat) 0 42 E_FAIL ⟨792⟩ =
      (0, CreatedDevice.passthrough 42) :=
  ⟨by decide, by decide,
    (C5_createDevice_info_failure_fail_open (H := Nat) 0 42 E_FAIL ⟨792⟩
      (by decide) (by decide)).1⟩

/-- C3: `Release` returns exactly the value the real object's `Release`
returned and destroys the proxy iff that returned value is zero (the
decision uses the returned value, not a re-read count, since it holds
for an arbitrary `realRelease`); moreover, for a proxy over a
reference-counted real object with positive count `n`, after `k`
releases the count is `n - k` and the proxy is alive iff `k < n`, so it
is destroyed exactly once, exactly when the count reaches zero. -/
theorem C3_release_delegates_and_destroys_on_zero {R : Type}
    (realRelease : R → Nat × R) (s : ProxyState R) (n : Nat)
    (hn : 0 < n) :
    (proxyRelease realRelease s).1 = (realRelease s.realObj).1 ∧
    (s.proxyAlive = true →
      ((proxyRelease realRelease s).2.proxyAlive = false ↔
        (realRelease s.realObj).1 = 0)) ∧
    ∀ k, releaseStep^[k] ⟨n, true⟩ =
      ⟨n - k, decide (k < n)⟩ := by
  refine ⟨rfl, ?_, ?_⟩
  · intro halive
    unfold proxyRelease
    constructor
    · intro hdead
      by_contra hne
      simp only [if_neg hne, halive] at hdead
      exact Bool.noConfusion hdead
    · intro hzero
      simp [hzero]
  · intro k
    induction k with
    | zero =>
      simp [hn]
    | succ k ih =>
      rw [Function.iterate_succ_apply', ih]
      unfold releaseStep proxyRelease refRelease
      by_cases hk : k + 1 < n
      · have h1 : ¬(n - k - 1 = 0) := by omega
        have h2 : k < n := by omega
        simp [h1, h2, hk]
        omega
      · have h1 : n - k - 1 = 0 := by omega
        simp [h1, hk]
        omega

/-- C3 witness: a proxy over a real object of count 3 (so the real
`Release` returns 2): the proxy returns 2, stays alive, and the
iterated-release trajectory from count 2 is as stated. -/
theorem C3_release_delegates_and_destroys_on_zero_witness :
    0 < 2 ∧
    (proxyRelease refRelease ⟨3, true⟩).1 = (refRelease 3).1 ∧
    releaseStep^[2] ⟨2, true⟩ = ⟨0, decide (2 < 2)⟩ :=
  ⟨by decide,
    (C3_release_delegates_and_destroys_on_zero refRelease ⟨3, true⟩ 2
      (by decide)).1,
    (C3_release_delegates_and_destroys_on_zero refRelease ⟨3, true⟩ 2
      (by decide)).2.2 2⟩

/-- C9: `QueryInterface` asked for `IID_IUnknown` or the proxy's own
base IID stores the proxy itself, performs exactly one `AddRef`
increment and returns `S_OK`; asked for any other identifier it
forwards to the real object and returns its result and output
unchanged, with no increment of its own. -/
theorem C9_queryInterface_identity_or_forward {H : Type}
    (realQI : QIid → Int × H) :
    proxyQueryInterface realQI QIid.iUnknown = (S_OK, QIOut.self, 1) ∧
    proxyQueryInterface realQI QIid.ownBase = (S_OK, QIOut.self, 1) ∧
    ∀ c, proxyQueryInterface realQI (QIid.other c) =
      ((realQI (QIid.other c)).1,
        QIOut.fromReal (realQI (QIid.other c)).2, 0) := by
  refine ⟨rfl, rfl, fun c => rfl⟩

/-- C6: with the genuine create function available, the exported
`DirectInput8Create` called with an identifier other than
`IID_IDirectInput8A` and `IID_IDirectInput8W` returns exactly the
genuine function's result code, and the caller's output slot holds
exactly what the genuine function wrote, with no wrapper object. -/
theorem C6_directInput8Create_unknown_iid_forwarded {H : Type}
    (cached : Bool) (env : LoadEnv) (realCreate : Riid → Int × H)
    (c : Nat)
    (hload : cached = true ∨
      (env.loadLibraryOk = true ∧ env.getProcOk = true)) :
    DirectInput8Create cached env realCreate (Riid.other c) =
      ((realCreate (Riid.other c)).1,
        PpvOut.fromReal (realCreate (Riid.other c)).2, true) := by
  unfold DirectInput8Create
  rcases hload with h | ⟨h1, h2⟩
  · simp [h]
  · simp [h1, h2]

/-- C6 witness: a first call (nothing cached) with a loadable genuine
DLL and an unrecognized identifier; the genuine result `7` and output
`99` come back untouched. -/
theorem C6_directInput8Create_unknown_iid_forwarded_witness :
    ((false : Bool) = true ∨
      ((⟨true, true⟩ : LoadEnv).loadLibraryOk = true ∧
        (⟨true, true⟩ : LoadEnv).getProcOk = true)) ∧
    DirectInput8Create false ⟨true, true⟩
        (fun _ => ((7 : Int), (99 : Nat))) (Riid.other 5) =
      (7, PpvOut.fromReal 99, true) :=
  ⟨Or.inr ⟨rfl, rfl⟩,
    C6_directInput8Create_unknown_iid_forwarded false ⟨true, true⟩
      (fun _ => ((7 : Int), (99 : Nat))) 5 (Or.inr ⟨rfl, rfl⟩)⟩

/-- C8: on a call with the function pointer not yet cached: if loading
the genuine DLL or resolving its export fails, the entry point returns
`E_FAIL`, writes nothing to the output and leaves the cache unset (so a
later call retries the load); if both succeed, the pointer is cached
and the call behaves exactly like a call with the pointer already
cached; and calls with the pointer cached ignore the load environment
entirely (the cached pointer is reused). -/
theorem C8_directInput8Create_load_failure_not_cached {H : Type}
    (env : LoadEnv) (realCreate : Riid → Int × H) (riid : Riid) :
    ((env.loadLibraryOk = false ∨ env.getProcOk = false) →
      DirectInput8Create false env realCreate riid =
        (E_FAIL, PpvOut.untouched, false)) ∧
    ((env.loadLibraryOk = true ∧ env.getProcOk = true) →
      (DirectInput8Create false env realCreate riid).2.2 = true ∧
      DirectInput8Create false env realCreate riid =
        DirectInput8Create true env realCreate riid) ∧
    ∀ env2 : LoadEnv, DirectInput8Create true env2 realCreate riid =
      DirectInput8Create true env realCreate riid := by
  refine ⟨?_, ?_, ?_⟩
  · intro hfail
    unfold DirectInput8Create
    cases hl : env.loadLibraryOk with
    | false => simp [hl]
    | true =>
      have hp : env.getProcOk = false := by
        rcases hfail with hf | hf
        · rw [hl] at hf
          exact absurd hf (by decide)
        · exact hf
      simp [hl, hp]
  · intro ⟨h1, h2⟩
    constructor
    · unfold DirectInput8Create
      simp only [h1, h2]
      cases riid <;> simp
    · unfold DirectInput8Create
      simp [h1, h2]
  · intro env2
    unfold DirectInput8Create
    simp

/-- C8 witness: with `LoadLibraryA` failing on an uncached call, the
result is `E_FAIL`, nothing is written and the cache stays unset. -/
theorem C8_directInput8Create_load_failure_not_cached_witness :
    ((⟨false, true⟩ : LoadEnv).loadLibraryOk = false ∨
      (⟨false, true⟩ : LoadEnv).getProcOk = false) ∧
    DirectInput8Create false ⟨false, true⟩
        (fun _ => ((0 : Int), (99 : Nat))) Riid.a8 =
      (E_FAIL, PpvOut.untouched, false) :=
  ⟨Or.inl rfl,
    (C8_directInput8Create_load_failure_not_cached ⟨false, true⟩
      (fun _ => ((0 : Int), (99 : Nat))) Riid.a8).1
      (Or.inl rfl)⟩

end DInput8Wrapper
